import Mathlib

/-!
Verification of the view-synthesis subsystem of the
Blender-Addon-Photogrammetry-Importer repository
(`photogrammetry_importer/panels/view_synthesis_operators.py`).

The development shallowly embeds the transform correction, the command
builder, the temp-file cleanup, and the two orchestrators (single-shot
`run_view_synth` and the animation variant
`ExportViewSynthesisAnimOperator.execute`) as pure Lean functions, with
the orchestrators producing explicit event traces, and proves the
specification's claims about them.
-/

namespace ViewSynth

/-- 4×4 homogeneous transforms, entries as exact rationals. -/
abbrev M4 := Matrix (Fin 4) (Fin 4) ℚ

/-- A 3-component translation vector (`centroid_shift`). -/
abbrev V3 := ℚ × ℚ × ℚ

/-- Modelled from the spec: `invert_transformation_matrix` (from
`photogrammetry_importer/utility/np_utility.py`, which is not part of the
provided sources) "computes the inverse of the anchor's world transform".
Embedded as the adjugate-based matrix inverse, which agrees with the true
inverse on every invertible matrix (`invert_eq_of_right_inverse`). -/
def invert_transformation_matrix (A : M4) : M4 :=
  A.det⁻¹ • A.adjugate

/-- The in-place update performed at lines 188–190 of
`view_synthesis_operators.py`: add the components of the centroid shift to
entries `[0,3]`, `[1,3]`, `[2,3]` of the (already inverted) anchor matrix. -/
def add_centroid_shift (M : M4) (s : V3) : M4 :=
  Matrix.of fun i j =>
    M i j +
      (if i = 0 ∧ j = 3 then s.1
       else if i = 1 ∧ j = 3 then s.2.1
       else if i = 2 ∧ j = 3 then s.2.2
       else 0)

/-- Embedding of `shift_selected_camera_relative_to_anchor` (lines 177–206):
invert the anchor's world matrix, add the recorded centroid shift (when
present) to its translation column, and left-multiply the camera's world
matrix by the result.  The Blender-object plumbing (`bpy.data.objects`
lookup, `camera_obj.copy()`, `get_computer_vision_camera`) is modelled as
identity on the world transform, the scene state being passed in as the
anchor matrix, the optional shift and the camera matrix.  Returns the
corrected world transform together with the observed shift, mirroring the
Python return pair. -/
def shift_selected_camera_relative_to_anchor
    (anchor_matrix_world : M4) (centroid_shift : Option V3)
    (camera_matrix_world : M4) : M4 × Option V3 :=
  let inverted := invert_transformation_matrix anchor_matrix_world
  let shifted :=
    match centroid_shift with
    | none => inverted
    | some s => add_centroid_shift inverted s
  (shifted * camera_matrix_world, centroid_shift)

/-- If `B` is a right inverse of `A` then `invert_transformation_matrix A`
is exactly `B` — i.e. the modelled inversion really computes the matrix
inverse on invertible inputs. -/
lemma invert_eq_of_right_inverse (A B : M4) (h : A * B = 1) :
    invert_transformation_matrix A = B := by
  have hdet : IsUnit A.det := Matrix.isUnit_det_of_right_inverse h
  have hdet0 : A.det ≠ 0 := hdet.ne_zero
  have hleft : invert_transformation_matrix A * A = 1 := by
    unfold invert_transformation_matrix
    rw [Matrix.smul_mul, Matrix.adjugate_mul, smul_smul,
      inv_mul_cancel₀ hdet0, one_smul]
  calc invert_transformation_matrix A
      = invert_transformation_matrix A * (A * B) := by rw [h, mul_one]
    _ = invert_transformation_matrix A * A * B := by rw [mul_assoc]
    _ = B := by rw [hleft, one_mul]

/-- The anchor of the spec's fixed numeric example: the identity translated
by (1, 2, 3). -/
def anchor_example : M4 :=
  !![1, 0, 0, 1; 0, 1, 0, 2; 0, 0, 1, 3; 0, 0, 0, 1]

/-- The inverse of `anchor_example`: identity translated by (−1, −2, −3). -/
def anchor_example_inv : M4 :=
  !![1, 0, 0, -1; 0, 1, 0, -2; 0, 0, 1, -3; 0, 0, 0, 1]

/-- The translation column of a homogeneous transform. -/
def translation_of (M : M4) : V3 := (M 0 3, M 1 3, M 2 3)

/-- C1: the transform correction returns inverse(A) left-composed with the
camera transform C; a present centroid shift s is added to the translation
entries [0,3], [1,3], [2,3] of inverse(A) before the composition; with no
shift the result is exactly inverse(A)·C; and on the fixed example
(anchor = identity translated by (1,2,3), shift = (0.5,0,0),
camera = identity) the corrected translation is (−0.5,−2,−3). -/
theorem transform_correction_shift_spec :
    (∀ A C : M4,
        (shift_selected_camera_relative_to_anchor A none C).1 =
          invert_transformation_matrix A * C) ∧
    (∀ (A C : M4) (s : V3),
        (shift_selected_camera_relative_to_anchor A (some s) C).1 =
          add_centroid_shift (invert_transformation_matrix A) s * C) ∧
    (∀ A B : M4, A * B = 1 → invert_transformation_matrix A = B) ∧
    translation_of
        (shift_selected_camera_relative_to_anchor anchor_example
          (some (1/2, 0, 0)) 1).1 = (-(1/2), -2, -3) := by
  refine ⟨fun A C => rfl, fun A C s => rfl, invert_eq_of_right_inverse, ?_⟩
  have hinv : invert_transformation_matrix anchor_example =
      anchor_example_inv := by
    refine invert_eq_of_right_inverse _ _ ?_
    ext i j
    fin_cases i <;> fin_cases j <;>
      simp [anchor_example, anchor_example_inv, Matrix.mul_apply,
        Fin.sum_univ_four, Matrix.one_apply, Matrix.vecHead, Matrix.vecTail]
  show translation_of
      (add_centroid_shift (invert_transformation_matrix anchor_example)
        (1/2, 0, 0) * 1) = (-(1/2), -2, -3)
  rw [hinv, mul_one]
  simp [translation_of, add_centroid_shift, anchor_example_inv,
    Matrix.vecHead, Matrix.vecTail]
  norm_num

/-- Witness for `transform_correction_shift_spec`: its inverse
characterisation applied at the identity matrix. -/
theorem transform_correction_shift_spec_witness :
    (1 : M4) * 1 = 1 ∧ invert_transformation_matrix (1 : M4) = 1 :=
  ⟨one_mul 1, transform_correction_shift_spec.2.2.1 1 1 (one_mul 1)⟩

/-! ## Command builder -/

/-- The choices of the panel's `execution_environment` enum property
(`view_3d_view_synthesis_panel.py`, lines 22–35): `"CONDA"` or
`"DEFAULT PYTHON"`. -/
inductive ExecutionEnvironment
  | conda
  | defaultPython
deriving DecidableEq

/-- The fields of `ViewSynthesisPanelSettings` consumed by
`view_synthesis_operators.py`. -/
structure ViewSynthesisPanelSettings where
  execution_environment : ExecutionEnvironment
  conda_exe_fp : String
  conda_env_name : String
  python_exe_fp : String
  additional_system_dps : String
  view_synthesis_executable_fp : String
  view_synthesis_snapshot_fp : String
  samples_per_pixel : Int
  rotation_anchor_obj_name : String
deriving DecidableEq

/-- The value of `sys.platform`: the source branches on `"linux"` and
`"win32"`; `other` stands for every remaining platform (e.g. `"darwin"`). -/
inductive Platform
  | linux
  | win32
  | other
deriving DecidableEq

/-- Python exceptions raised by the embedded code paths. -/
inductive PyError
  /-- A failed `assert` statement. -/
  | assertionFailed
  /-- `write_instant_ngp_file` failed to serialize the request. -/
  | serializationError
  /-- `read_np_array_from_file` failed to read the response. -/
  | responseReadError
  /-- A local variable was referenced before assignment. -/
  | nameError
  /-- `os.unlink` was called on a path that does not exist. -/
  | fileNotFound
deriving DecidableEq

/-- Modelled from the spec: `create_subprocess_command` (from
`photogrammetry_importer/process_communication/subprocess_command.py`,
which is not part of the provided sources).  Per the spec's Command
Builder contract: with a conda executable and environment name, the
command activates the named environment via the conda executable and then
runs the target script with its parameters; with a system interpreter it
directly invokes the interpreter with the script and parameters; with
neither it invokes the target directly with no interpreter prefix. -/
def create_subprocess_command (exe_or_script_fp : String)
    (parameter_list : List String) (python_exe_fp : Option String)
    (conda_exe_fp : Option String) (conda_env_name : Option String) :
    List String :=
  match conda_exe_fp, conda_env_name with
  | some conda_exe, some env_name =>
      [conda_exe, "run", "-n", env_name, "python", exe_or_script_fp] ++
        parameter_list
  | _, _ =>
      match python_exe_fp with
      | some python_exe => [python_exe, exe_or_script_fp] ++ parameter_list
      | none => exe_or_script_fp :: parameter_list

/-- Python's `str.strip()`: the characters of the string with leading and
trailing whitespace removed. -/
def python_strip (s : String) : List Char :=
  ((s.data.dropWhile Char.isWhitespace).reverse.dropWhile
    Char.isWhitespace).reverse

/-- Embedding of `create_instant_ngp_cmd` (lines 209–281).  The platform
branch creating the two named temporary files comes first: on any platform
other than `"linux"` and `"win32"` it hits `assert False` before the panel
settings are read or any argument token is built, which is why the result
on `Platform.other` does not depend on any other argument.  The temp-file
names are passed in (standing for the names `NamedTemporaryFile` chose;
the files exist once created, so the `os.path.isfile` asserts on them
pass), and `script_is_file` stands for
`os.path.isfile(view_synthesis_exe_or_script_fp)`.  On success it returns
the built command together with both temp-file names. -/
def create_instant_ngp_cmd (platform : Platform)
    (settings : ViewSynthesisPanelSettings) (output_dp : Option String)
    (temp_json_name temp_array_name : String) (script_is_file : Bool) :
    Except PyError (List String × String × String) :=
  match platform with
  | .other => .error .assertionFailed
  | _ =>
    let env_selection : Option String × Option String × Option String :=
      match settings.execution_environment with
      | .conda => (none, some settings.conda_exe_fp,
          some settings.conda_env_name)
      | .defaultPython => (some settings.python_exe_fp, none, none)
    let parameter_list :=
      ["--load_snapshot", settings.view_synthesis_snapshot_fp] ++
      ["--temp_json_ifp", temp_json_name] ++
      ["--temp_array_ofp", temp_array_name] ++
      ["--samples_per_pixel", toString settings.samples_per_pixel] ++
      (if python_strip settings.additional_system_dps = [] then []
       else ["--additional_system_dps", settings.additional_system_dps]) ++
      (match output_dp with
       | none => []
       | some dp =>
           if python_strip dp = [] then []
           else ["--additional_output_dp", dp])
    if script_is_file then
      .ok (create_subprocess_command settings.view_synthesis_executable_fp
        parameter_list env_selection.1 env_selection.2.1 env_selection.2.2,
        temp_json_name, temp_array_name)
    else
      .error .assertionFailed

/-! ## Temp-file cleanup and orchestrator traces -/

/-- Observable actions of one invocation, listed in program order. -/
inductive Event
  /-- `bpy.context.scene.frame_set(idx)`. -/
  | seekFrame (idx : Int)
  /-- One call of `shift_selected_camera_relative_to_anchor`. -/
  | correctTransform
  /-- `InstantNGPFileHandler.write_instant_ngp_file` wrote the request
  file with `numCameras` camera entries and the given `ref_centroid_shift`. -/
  | writeRequest (numCameras : Nat) (shift : Option V3)
  /-- `subprocess.Popen(command)` started the child process. -/
  | spawn
  /-- `child_process.communicate()` returned; the child exited with `code`. -/
  | waitExit (code : Int)
  /-- `read_np_array_from_file` read the response file. -/
  | readResponse
  /-- The rendered image was created in `bpy.data.images` for display. -/
  | display
  /-- `cleanup_tmp_files` was called. -/
  | cleanup
deriving DecidableEq

/-- Whether each of the two temporary files currently exists on disk. -/
structure TmpFsState where
  json_exists : Bool
  array_exists : Bool
deriving DecidableEq

/-- `os.unlink(path)`: removes the file at the path, raising
`FileNotFoundError` when the path does not exist. -/
def os_unlink (present : Bool) : Except PyError Unit :=
  if present then .ok () else .error .fileNotFound

/-- Embedding of `cleanup_tmp_files` (lines 154–160): only on `"win32"`
does the function act — it closes both handles and then unlinks both files
by name (each unlink raising if its file is already gone); on every other
platform the body is empty, deletion being left to the
`NamedTemporaryFile` objects themselves. -/
def cleanup_tmp_files (platform : Platform) (st : TmpFsState) :
    Except PyError TmpFsState :=
  match platform with
  | .win32 => do
      let _ ← os_unlink st.json_exists
      let _ ← os_unlink st.array_exists
      .ok { json_exists := false, array_exists := false }
  | _ => .ok st

/-- Embedding of `run_view_synth` (lines 34–60).  Scene state enters as
`centroid_shift` (the shift the transform corrector observes); `write_ok`
says whether `write_instant_ngp_file` succeeds, `exit_code` is the child
process's exit status, and `read_ok` says whether
`read_np_array_from_file` succeeds.  The Python body is straight line —
there is no check of the exit status and no try/finally — so a failing
step aborts the invocation with every later step (cleanup included) never
reached, and a successful read is followed by display and cleanup
whatever the exit code was. -/
def run_view_synth (platform : Platform)
    (settings : ViewSynthesisPanelSettings) (output_dp : Option String)
    (temp_json_name temp_array_name : String) (script_is_file : Bool)
    (centroid_shift : Option V3) (write_ok : Bool) (exit_code : Int)
    (read_ok : Bool) : List Event × Except PyError Unit :=
  match create_instant_ngp_cmd platform settings output_dp temp_json_name
      temp_array_name script_is_file with
  | .error e => ([], .error e)
  | .ok _ =>
    if write_ok then
      if read_ok then
        ([.correctTransform, .writeRequest 1 centroid_shift, .spawn,
          .waitExit exit_code, .readResponse, .display, .cleanup], .ok ())
      else
        ([.correctTransform, .writeRequest 1 centroid_shift, .spawn,
          .waitExit exit_code], .error .responseReadError)
    else
      ([.correctTransform], .error .serializationError)

/-- The events of the capture loop of the animation operator: for each
frame index, a timeline seek immediately followed by one transform
correction. -/
def capture_events : List Int → List Event
  | [] => []
  | idx :: rest => .seekFrame idx :: .correctTransform :: capture_events rest

/-- Embedding of `ExportViewSynthesisAnimOperator.execute`
(lines 118–151).  `animation_indices` is the list returned by
`get_scene_animation_indices()` and `shift_at idx` the centroid shift the
corrector observes with the timeline at frame `idx`.  The loop seeks to
each index in order and corrects once per index, rebinding
`centroid_shift` each iteration, so the value passed to the single
`write_instant_ngp_file` call is the one observed at the last index — and
with an empty index list the variable is never bound, so the write raises
`NameError`.  No response is read and nothing is displayed on this path. -/
def anim_execute (platform : Platform)
    (settings : ViewSynthesisPanelSettings) (output_dp : Option String)
    (temp_json_name temp_array_name : String) (script_is_file : Bool)
    (animation_indices : List Int) (shift_at : Int → Option V3)
    (write_ok : Bool) (exit_code : Int) :
    List Event × Except PyError Unit :=
  match create_instant_ngp_cmd platform settings output_dp temp_json_name
      temp_array_name script_is_file with
  | .error e => ([], .error e)
  | .ok _ =>
    let capture := capture_events animation_indices
    match animation_indices.getLast? with
    | none => (capture, .error .nameError)
    | some last =>
      if write_ok then
        (capture ++
          [.writeRequest animation_indices.length (shift_at last), .spawn,
           .waitExit exit_code, .cleanup], .ok ())
      else
        (capture, .error .serializationError)

/-! ## Response display -/

/-- A numpy array of shape (height, width, channels): rows outermost, each
row a list of pixels, each pixel a list of channel values. -/
abbrev NpArray3 := List (List (List ℚ))

/-- `np.flipud`: reverse the order of the rows (the first axis). -/
def flipud (rows : NpArray3) : NpArray3 := rows.reverse

/-- `np.ravel` on a 3-dimensional array: flatten in row-major order. -/
def np_ravel (rows : NpArray3) : List ℚ := rows.flatten.flatten

/-- The observable result of `bpy.data.images.new` plus pixel assignment. -/
structure BlenderImage where
  name : String
  width : Nat
  height : Nat
  pixels : List ℚ
deriving DecidableEq

/-- Embedding of `show_image_in_blender` (lines 162–175): given the
response array read back from the temp file (shape (height, width,
channels)) and the selected camera's name, create an image whose width is
the array's second dimension and height its first, flip the array's rows
top-to-bottom with `np.flipud`, assign the flattened flipped array as the
pixels, and attach the image as background of the named camera. -/
def show_image_in_blender (img_np_array : NpArray3) (camera_name : String) :
    BlenderImage × String :=
  ({ name := "view_synthesis_result",
     width := (img_np_array.headD []).length,
     height := img_np_array.length,
     pixels := np_ravel (flipud img_np_array) }, camera_name)

/-! ## Operator availability -/

/-- A Blender camera object as the operators see it. -/
structure Camera where
  name : String
  matrix_world : M4

namespace RunViewSynthesisOperator

/-- Embedding of `RunViewSynthesisOperator.poll` (lines 69–73): the
operator is available iff `get_selected_camera()` returned a camera. -/
def poll (selected_camera : Option Camera) : Bool :=
  selected_camera.isSome

end RunViewSynthesisOperator

namespace ExportViewSynthesisOperator

/-- Embedding of `ExportViewSynthesisOperator.poll` (lines 91–95). -/
def poll (selected_camera : Option Camera) : Bool :=
  selected_camera.isSome

end ExportViewSynthesisOperator

namespace ExportViewSynthesisAnimOperator

/-- Embedding of `ExportViewSynthesisAnimOperator.poll` (lines 112–116);
the `cam.animation_data` clause is commented out in the source. -/
def poll (selected_camera : Option Camera) : Bool :=
  selected_camera.isSome

end ExportViewSynthesisAnimOperator

/-! ## Trace observations -/

/-- Scanner for the IPC ordering discipline along a trace: the request
must not be (re)written once the process was spawned, the process may
only be spawned after a completed request write, may only exit after
being spawned, and the response may only be read after the process
exited. -/
def ipcOrderOk (wrote spawned exited : Bool) : List Event → Bool
  | [] => true
  | e :: rest =>
    match e with
    | .writeRequest _ _ => !spawned && ipcOrderOk true spawned exited rest
    | .spawn => (wrote && !spawned) && ipcOrderOk wrote true exited rest
    | .waitExit _ => spawned && ipcOrderOk wrote spawned true rest
    | .readResponse => exited && ipcOrderOk wrote spawned exited rest
    | _ => ipcOrderOk wrote spawned exited rest

/-- The `ref_centroid_shift` values of the request writes of a trace, in
order. -/
def written_shifts (trace : List Event) : List (Option V3) :=
  trace.filterMap fun e =>
    match e with
    | .writeRequest _ s => some s
    | _ => none

/-- Does an event denote a completed request write? -/
def isRequestWrite : Event → Bool
  | .writeRequest _ _ => true
  | _ => false

/-- The panel settings of the spec's Command Builder example: system
interpreter `"py"`, script `"run.py"`, snapshot `"s.msgpack"`, 4 samples
per pixel, empty optional search paths. -/
def example_settings : ViewSynthesisPanelSettings where
  execution_environment := .defaultPython
  conda_exe_fp := "conda"
  conda_env_name := "base"
  python_exe_fp := "py"
  additional_system_dps := ""
  view_synthesis_executable_fp := "run.py"
  view_synthesis_snapshot_fp := "s.msgpack"
  samples_per_pixel := 4
  rotation_anchor_obj_name := "OpenGL Point Cloud"

/-- Capture-loop events are only seeks and transform corrections. -/
lemma mem_capture_events {e : Event} {indices : List Int}
    (h : e ∈ capture_events indices) :
    (∃ i, e = Event.seekFrame i) ∨ e = Event.correctTransform := by
  induction indices with
  | nil => simp [capture_events] at h
  | cons i rest ih =>
    simp only [capture_events, List.mem_cons] at h
    rcases h with h | h | h
    · exact Or.inl ⟨i, h⟩
    · exact Or.inr h
    · exact ih h

/-- The IPC scanner ignores the capture loop's events. -/
lemma ipcOrderOk_capture_append (indices : List Int)
    (wrote spawned exited : Bool) (rest : List Event) :
    ipcOrderOk wrote spawned exited (capture_events indices ++ rest) =
      ipcOrderOk wrote spawned exited rest := by
  induction indices with
  | nil => rfl
  | cons i tail ih => simp [capture_events, ipcOrderOk, ih]

/-- The capture loop performs no request write. -/
lemma written_shifts_capture_append (indices : List Int)
    (rest : List Event) :
    written_shifts (capture_events indices ++ rest) =
      written_shifts rest := by
  induction indices with
  | nil => rfl
  | cons i tail ih => simp [capture_events, written_shifts] at ih ⊢; exact ih

/-! ## Claim theorems -/

/-- C9: on every platform other than linux and win32 the command
construction fails with an assertion failure in the temp-file setup
branch, uniformly in every panel configuration (so before any settings
are read or any argument token is built), and both orchestrators abort
with an empty trace — in particular no process is ever spawned. -/
theorem other_platform_asserts_before_anything :
    ∀ (settings : ViewSynthesisPanelSettings) (output_dp : Option String)
      (tj ta : String) (script_is_file : Bool) (shift : Option V3)
      (write_ok : Bool) (exit_code : Int) (read_ok : Bool)
      (indices : List Int) (shift_at : Int → Option V3)
      (write_ok' : Bool) (exit_code' : Int),
      create_instant_ngp_cmd .other settings output_dp tj ta script_is_file
          = .error .assertionFailed ∧
      run_view_synth .other settings output_dp tj ta script_is_file shift
          write_ok exit_code read_ok = ([], .error .assertionFailed) ∧
      anim_execute .other settings output_dp tj ta script_is_file indices
          shift_at write_ok' exit_code' = ([], .error .assertionFailed) :=
  fun _ _ _ _ _ _ _ _ _ _ _ _ _ => ⟨rfl, rfl, rfl⟩

/-- C10: for each of the three operators, `poll` returns true exactly when
`get_selected_camera()` returned a camera. -/
theorem poll_iff_camera_selected :
    ∀ c : Option Camera,
      (RunViewSynthesisOperator.poll c = true ↔ ∃ cam, c = some cam) ∧
      (ExportViewSynthesisOperator.poll c = true ↔ ∃ cam, c = some cam) ∧
      (ExportViewSynthesisAnimOperator.poll c = true ↔
        ∃ cam, c = some cam) := by
  intro c
  cases c <;>
    simp [RunViewSynthesisOperator.poll, ExportViewSynthesisOperator.poll,
      ExportViewSynthesisAnimOperator.poll]

/-- C4 fails as stated: at the spec's example input the builder also emits
the `--temp_json_ifp` and `--temp_array_ofp` pairs, so the argument vector
is not the claimed six tokens. -/
theorem command_vector_has_temp_file_tokens :
    create_instant_ngp_cmd .linux example_settings none "req.json"
        "resp.npy" true =
      .ok (["py", "run.py", "--load_snapshot", "s.msgpack",
        "--temp_json_ifp", "req.json", "--temp_array_ofp", "resp.npy",
        "--samples_per_pixel", "4"], "req.json", "resp.npy") ∧
    (["py", "run.py", "--load_snapshot", "s.msgpack",
        "--temp_json_ifp", "req.json", "--temp_array_ofp", "resp.npy",
        "--samples_per_pixel", "4"] ≠
      ["py", "run.py", "--load_snapshot", "s.msgpack",
        "--samples_per_pixel", "4"]) :=
  ⟨rfl, by decide⟩

/-- C4 amended: for the system-interpreter example the argument vector is
exactly `py run.py --load_snapshot s.msgpack --temp_json_ifp <request>
--temp_array_ofp <response> --samples_per_pixel 4`, each recognized option
a `--name value` pair in that fixed order; empty or whitespace-only
optional values (search paths, output directory) contribute no tokens,
while a non-blank search-path value appends exactly its pair. -/
theorem command_vector_spec :
    (∀ tj ta : String,
      create_instant_ngp_cmd .linux example_settings none tj ta true =
        .ok (["py", "run.py", "--load_snapshot", "s.msgpack",
          "--temp_json_ifp", tj, "--temp_array_ofp", ta,
          "--samples_per_pixel", "4"], tj, ta)) ∧
    (∀ extra tj ta : String, python_strip extra = [] →
      create_instant_ngp_cmd .linux
          { example_settings with additional_system_dps := extra } none tj
          ta true =
        create_instant_ngp_cmd .linux example_settings none tj ta true) ∧
    (∀ dp tj ta : String, python_strip dp = [] →
      create_instant_ngp_cmd .linux example_settings (some dp) tj ta true =
        create_instant_ngp_cmd .linux example_settings none tj ta true) ∧
    (∀ extra tj ta : String, python_strip extra ≠ [] →
      create_instant_ngp_cmd .linux
          { example_settings with additional_system_dps := extra } none tj
          ta true =
        .ok (["py", "run.py", "--load_snapshot", "s.msgpack",
          "--temp_json_ifp", tj, "--temp_array_ofp", ta,
          "--samples_per_pixel", "4", "--additional_system_dps", extra],
          tj, ta)) := by
  refine ⟨fun tj ta => rfl, ?_, ?_, ?_⟩
  · intro extra tj ta h
    simp [create_instant_ngp_cmd, create_subprocess_command,
      example_settings, h]
    rfl
  · intro dp tj ta h
    simp [create_instant_ngp_cmd, create_subprocess_command,
      example_settings, h]
  · intro extra tj ta h
    simp [create_instant_ngp_cmd, create_subprocess_command,
      example_settings, h]
    rfl

/-- Witness for `command_vector_spec`: a blank optional search-path value
is dropped entirely. -/
theorem command_vector_spec_witness :
    python_strip " " = ([] : List Char) ∧
    create_instant_ngp_cmd .linux
        { example_settings with additional_system_dps := " " } none
        "req.json" "resp.npy" true =
      create_instant_ngp_cmd .linux example_settings none "req.json"
        "resp.npy" true :=
  ⟨rfl, command_vector_spec.2.1 " " "req.json" "resp.npy" rfl⟩

/-- C2 fails as stated: with exit code 1 the single-shot orchestrator
still reads the response file and reports no failure. -/
theorem nonzero_exit_response_still_read :
    Event.readResponse ∈
      (run_view_synth .linux example_settings none "req.json" "resp.npy"
        true none true 1 true).1 ∧
    (run_view_synth .linux example_settings none "req.json" "resp.npy"
        true none true 1 true).2 = .ok () := by
  refine ⟨?_, rfl⟩
  show Event.readResponse ∈
    [Event.correctTransform, Event.writeRequest 1 none, Event.spawn,
     Event.waitExit 1, Event.readResponse, Event.display, Event.cleanup]
  simp

/-- C2 amended: the single-shot orchestrator never inspects the exit
status — for every exit code (zero or not) it proceeds after the wait to
read the response file, display it and call cleanup, finishing without
surfacing any process failure. -/
theorem exit_status_not_checked :
    ∀ (settings : ViewSynthesisPanelSettings) (output_dp : Option String)
      (tj ta : String) (shift : Option V3) (exit_code : Int),
      run_view_synth .linux settings output_dp tj ta true shift true
          exit_code true =
        ([.correctTransform, .writeRequest 1 shift, .spawn,
          .waitExit exit_code, .readResponse, .display, .cleanup],
         .ok ()) :=
  fun _ _ _ _ _ _ => rfl

/-- The IPC scanner accepts a bare capture prefix. -/
lemma ipcOrderOk_capture (indices : List Int) (wrote spawned exited : Bool) :
    ipcOrderOk wrote spawned exited (capture_events indices) = true := by
  have h := ipcOrderOk_capture_append indices wrote spawned exited []
  simpa using h

/-- Every event of an animation-variant trace is a seek, a transform
correction, a request write, the spawn, the exit wait, or the cleanup
call — never a response read or a display. -/
lemma mem_anim_execute_trace {e : Event} (platform : Platform)
    (settings : ViewSynthesisPanelSettings) (output_dp : Option String)
    (tj ta : String) (sif : Bool) (indices : List Int)
    (shift_at : Int → Option V3) (write_ok : Bool) (exit_code : Int)
    (h : e ∈ (anim_execute platform settings output_dp tj ta sif indices
      shift_at write_ok exit_code).1) :
    (∃ i, e = Event.seekFrame i) ∨ e = Event.correctTransform ∨
    (∃ n s, e = Event.writeRequest n s) ∨ e = Event.spawn ∨
    (∃ c, e = Event.waitExit c) ∨ e = Event.cleanup := by
  have hcap : e ∈ capture_events indices →
      (∃ i, e = Event.seekFrame i) ∨ e = Event.correctTransform ∨
      (∃ n s, e = Event.writeRequest n s) ∨ e = Event.spawn ∨
      (∃ c, e = Event.waitExit c) ∨ e = Event.cleanup := by
    intro hm
    rcases mem_capture_events hm with ⟨i, hi⟩ | hi
    · exact Or.inl ⟨i, hi⟩
    · exact Or.inr (Or.inl hi)
  cases hc : create_instant_ngp_cmd platform settings output_dp tj ta sif
      with
  | error err => simp [anim_execute, hc] at h
  | ok v =>
    cases hl : indices.getLast? with
    | none =>
      simp only [anim_execute, hc, hl] at h
      exact hcap h
    | some last =>
      cases write_ok with
      | false =>
        simp only [anim_execute, hc, hl, Bool.false_eq_true,
          if_false] at h
        exact hcap h
      | true =>
        simp only [anim_execute, hc, hl, if_true] at h
        rw [List.mem_append] at h
        rcases h with h | h
        · exact hcap h
        · simp only [List.mem_cons, List.mem_singleton,
            List.not_mem_nil, or_false] at h
          rcases h with h | h | h | h
          · exact Or.inr (Or.inr (Or.inl ⟨_, _, h⟩))
          · exact Or.inr (Or.inr (Or.inr (Or.inl h)))
          · exact Or.inr (Or.inr (Or.inr (Or.inr (Or.inl ⟨_, h⟩))))
          · exact Or.inr (Or.inr (Or.inr (Or.inr (Or.inr h))))

/-- C3 fails as stated: cleanup is not idempotent — on win32 a first run
deletes both temp files and a second run raises `FileNotFoundError` from
`os.unlink`. -/
theorem cleanup_second_run_raises :
    cleanup_tmp_files .win32 { json_exists := true, array_exists := true }
        = .ok { json_exists := false, array_exists := false } ∧
    (cleanup_tmp_files .win32
        { json_exists := true, array_exists := true }).bind
        (cleanup_tmp_files .win32) = .error .fileNotFound :=
  ⟨rfl, rfl⟩

/-- C3 amended: `cleanup_tmp_files` deletes the two temp files only on
win32 (elsewhere its body is empty, deletion being left to the
`NamedTemporaryFile` objects), and — the orchestrators being straight-line
code without try/finally — it is reached only when every prior step
succeeded: in the single-shot variant exactly when both the request write
and the response read succeed, in the animation variant exactly when the
index list is nonempty and the request write succeeds. -/
theorem cleanup_runs_only_on_success :
    (∀ st : TmpFsState, cleanup_tmp_files .linux st = .ok st) ∧
    (cleanup_tmp_files .win32 { json_exists := true, array_exists := true }
        = .ok { json_exists := false, array_exists := false }) ∧
    (∀ (settings : ViewSynthesisPanelSettings) (output_dp : Option String)
       (tj ta : String) (shift : Option V3) (write_ok : Bool)
       (exit_code : Int) (read_ok : Bool),
      Event.cleanup ∈ (run_view_synth .win32 settings output_dp tj ta true
          shift write_ok exit_code read_ok).1 ↔
        write_ok = true ∧ read_ok = true) ∧
    (∀ (settings : ViewSynthesisPanelSettings) (output_dp : Option String)
       (tj ta : String) (indices : List Int) (shift_at : Int → Option V3)
       (write_ok : Bool) (exit_code : Int),
      Event.cleanup ∈ (anim_execute .win32 settings output_dp tj ta true
          indices shift_at write_ok exit_code).1 ↔
        write_ok = true ∧ indices ≠ []) := by
  refine ⟨fun st => rfl, rfl, ?_, ?_⟩
  · intro settings output_dp tj ta shift w code r
    cases w <;> cases r <;> simp [run_view_synth, create_instant_ngp_cmd]
  · intro settings output_dp tj ta indices shift_at w code
    have hcap : Event.cleanup ∉ capture_events indices := by
      intro hm
      rcases mem_capture_events hm with ⟨i, hi⟩ | hi <;> simp at hi
    cases w with
    | false =>
      cases hl : indices.getLast? with
      | none => simp [anim_execute, create_instant_ngp_cmd, hl, hcap]
      | some last => simp [anim_execute, create_instant_ngp_cmd, hl, hcap]
    | true =>
      cases hl : indices.getLast? with
      | none =>
        have he : indices = [] := List.getLast?_eq_none_iff.mp hl
        subst he
        simp [anim_execute, create_instant_ngp_cmd, capture_events]
      | some last =>
        have hne : indices ≠ [] := by
          intro he
          subst he
          simp at hl
        simp [anim_execute, create_instant_ngp_cmd, hl, hcap, hne]

/-- C5 fails as stated: supplied with the empty frame-index list the
animation variant writes no request file at all (the shift variable is
never bound, so the write raises `NameError` and no process is started). -/
theorem anim_empty_indices_writes_nothing :
    anim_execute .linux example_settings none "req.json" "resp.npy" true
        [] (fun _ => none) true 0 = ([], .error .nameError) ∧
    (anim_execute .linux example_settings none "req.json" "resp.npy" true
        [] (fun _ => none) true 0).1.countP isRequestWrite = 0 :=
  ⟨rfl, rfl⟩

/-- C5 amended: for every nonempty list of N frame indices the animation
variant seeks to each index in list order, invoking the transform
corrector exactly once immediately after each seek, and then writes a
single request holding all N camera entries before the single spawn. -/
theorem anim_capture_once_per_index
    (settings : ViewSynthesisPanelSettings) (output_dp : Option String)
    (tj ta : String) (indices : List Int) (shift_at : Int → Option V3)
    (exit_code : Int) (h : indices ≠ []) :
    anim_execute .linux settings output_dp tj ta true indices shift_at
        true exit_code =
      (capture_events indices ++
        [Event.writeRequest indices.length (shift_at (indices.getLast h)),
         Event.spawn, Event.waitExit exit_code, Event.cleanup],
       .ok ()) := by
  simp [anim_execute, create_instant_ngp_cmd,
    List.getLast?_eq_getLast indices h]

/-- Witness for `anim_capture_once_per_index` at the spec's example
indices [0, 5, 10]. -/
theorem anim_capture_once_per_index_witness :
    ([0, 5, 10] : List Int) ≠ [] ∧
    anim_execute .linux example_settings none "req.json" "resp.npy" true
        [0, 5, 10] (fun _ => some (1, 0, 0)) true 0 =
      (capture_events [0, 5, 10] ++
        [Event.writeRequest 3 (some (1, 0, 0)), Event.spawn,
         Event.waitExit 0, Event.cleanup], .ok ()) :=
  ⟨by decide, anim_capture_once_per_index example_settings none "req.json"
    "resp.npy" [0, 5, 10] (fun _ => some (1, 0, 0)) 0 (by decide)⟩

/-- C8: the centroid shift written into the animation variant's single
request is the one observed at the last frame index — two shift histories
agreeing at the last index yield identical request writes, whatever they
did at earlier indices. -/
theorem anim_last_shift_wins (settings : ViewSynthesisPanelSettings)
    (output_dp : Option String) (tj ta : String) (indices : List Int)
    (shift_at shift_at' : Int → Option V3) (exit_code exit_code' : Int)
    (h : indices ≠ [])
    (hlast : shift_at (indices.getLast h) =
      shift_at' (indices.getLast h)) :
    written_shifts (anim_execute .linux settings output_dp tj ta true
        indices shift_at true exit_code).1 =
      [shift_at (indices.getLast h)] ∧
    written_shifts (anim_execute .linux settings output_dp tj ta true
        indices shift_at true exit_code).1 =
      written_shifts (anim_execute .linux settings output_dp tj ta true
        indices shift_at' true exit_code').1 := by
  simp only [anim_execute, create_instant_ngp_cmd,
    List.getLast?_eq_getLast indices h, if_true]
  rw [written_shifts_capture_append, written_shifts_capture_append]
  simp [written_shifts, hlast]

/-- Witness for `anim_last_shift_wins`: two histories differing at frames
0 and 5 but agreeing at the last frame 10 produce the same request write. -/
theorem anim_last_shift_wins_witness :
    ([0, 5, 10] : List Int) ≠ [] ∧
    written_shifts (anim_execute .linux example_settings none "req.json"
        "resp.npy" true [0, 5, 10]
        (fun i => if i = 10 then some (1, 0, 0) else none) true 0).1 =
      written_shifts (anim_execute .linux example_settings none "req.json"
        "resp.npy" true [0, 5, 10] (fun _ => some (1, 0, 0)) true 1).1 :=
  ⟨by decide, (anim_last_shift_wins example_settings none "req.json"
    "resp.npy" [0, 5, 10]
    (fun i => if i = 10 then some (1, 0, 0) else none)
    (fun _ => some (1, 0, 0)) 0 1 (by decide) (by decide)).2⟩

/-- C6: on every invocation of either variant the trace respects the IPC
ordering: the request is fully written before the process is spawned, and
the response is read only after the process has exited. -/
theorem request_before_spawn_read_after_exit :
    ∀ (platform : Platform) (settings : ViewSynthesisPanelSettings)
      (output_dp : Option String) (tj ta : String) (sif : Bool)
      (shift : Option V3) (write_ok : Bool) (exit_code : Int)
      (read_ok : Bool) (indices : List Int) (shift_at : Int → Option V3)
      (write_ok' : Bool) (exit_code' : Int),
      ipcOrderOk false false false
          (run_view_synth platform settings output_dp tj ta sif shift
            write_ok exit_code read_ok).1 = true ∧
      ipcOrderOk false false false
          (anim_execute platform settings output_dp tj ta sif indices
            shift_at write_ok' exit_code').1 = true := by
  intro platform settings output_dp tj ta sif shift w code r indices sa w'
    code'
  constructor
  · cases hc : create_instant_ngp_cmd platform settings output_dp tj ta
        sif with
    | error e => simp [run_view_synth, hc, ipcOrderOk]
    | ok v => cases w <;> cases r <;>
        simp [run_view_synth, hc, ipcOrderOk]
  · cases hc : create_instant_ngp_cmd platform settings output_dp tj ta
        sif with
    | error e => simp [anim_execute, hc, ipcOrderOk]
    | ok v =>
      cases hl : indices.getLast? with
      | none => simp [anim_execute, hc, hl, ipcOrderOk_capture]
      | some last =>
        cases w' <;>
          simp [anim_execute, hc, hl, ipcOrderOk_capture,
            ipcOrderOk_capture_append, ipcOrderOk]

/-- C7: the single-shot display flips the response array's rows
top-to-bottom before handing it over, taking the width from the second
dimension and the height from the first, while the animation variant
never reads a response nor displays anything. -/
theorem response_flipped_only_single_shot :
    (∀ (first_row : List (List ℚ)) (rest : List (List (List ℚ)))
       (camera_name : String),
      (show_image_in_blender (first_row :: rest) camera_name).1.pixels =
          np_ravel ((first_row :: rest).reverse) ∧
      (show_image_in_blender (first_row :: rest) camera_name).1.width =
          first_row.length ∧
      (show_image_in_blender (first_row :: rest) camera_name).1.height =
          rest.length + 1) ∧
    (∀ (platform : Platform) (settings : ViewSynthesisPanelSettings)
       (output_dp : Option String) (tj ta : String) (sif : Bool)
       (indices : List Int) (shift_at : Int → Option V3)
       (write_ok : Bool) (exit_code : Int),
      Event.display ∉ (anim_execute platform settings output_dp tj ta sif
          indices shift_at write_ok exit_code).1 ∧
      Event.readResponse ∉ (anim_execute platform settings output_dp tj ta
          sif indices shift_at write_ok exit_code).1) ∧
    (∀ (settings : ViewSynthesisPanelSettings) (output_dp : Option String)
       (tj ta : String) (shift : Option V3) (exit_code : Int),
      Event.display ∈ (run_view_synth .linux settings output_dp tj ta
          true shift true exit_code true).1) := by
  refine ⟨fun first_row rest camera_name => ⟨rfl, rfl, rfl⟩, ?_, ?_⟩
  · intro platform settings output_dp tj ta sif indices sa w code
    constructor <;>
      · intro hm
        rcases mem_anim_execute_trace platform settings output_dp tj ta
            sif indices sa w code hm with
          ⟨i, hi⟩ | hi | ⟨n, s, hi⟩ | hi | ⟨c, hi⟩ | hi <;> simp at hi
  · intro settings output_dp tj ta shift code
    show Event.display ∈
      [Event.correctTransform, Event.writeRequest 1 shift, Event.spawn,
       Event.waitExit code, Event.readResponse, Event.display,
       Event.cleanup]
    simp

end ViewSynth
